import Mathlib

/-!
Verification of `LabExT/Movement/Stages/Stage6DSmarActMCS2.py`

Shallow embedding of the SmarAct MCS2 stage driver and proofs about its
claimed behaviour.  The vendor control library `smaract.ctl` is external to
the repository; following the specification it is treated as an opaque
capability layer: its observable effects are recorded as a trace of
`HwCall` events, and its replies (open handles, sensor names, status codes)
are supplied by an environment record `Env`.

Python numeric values are modelled by exact rationals (`ℚ`): the micrometer
to picometer conversion `int(micrometer * 1e6)` truncates toward zero, which
is what Python's `int()` does on a float; the truncation-vs-rounding
distinction that the claims are about is independent of the binary floating
point representation at the inputs used below.
-/

namespace SmarActMCS2

/-- Python `int()` applied to a (here: exact rational) number: truncation
toward zero. -/
def pyTrunc (q : ℚ) : ℤ :=
  if 0 ≤ q then ⌊q⌋ else ⌈q⌉

/-- Source `Stage6DSmarActMCS2._Channel._to_picometer`:
`return int(micrometer * 1e6)`. -/
def toPicometer (micrometer : ℚ) : ℤ :=
  pyTrunc (micrometer * 1000000)

/-- Source `Stage6DSmarActMCS2._Channel._to_micrometer`:
`return picometer * 1e-6`. -/
def toMicrometer (picometer : ℤ) : ℚ :=
  (picometer : ℚ) * (1 / 1000000)

/-- Logical axis roles of one 3-axis logical stage. -/
inductive AxisT
  | X
  | Y
  | Z
deriving DecidableEq, Repr

/-- Names (`ch.name`) of the axis enumeration members. -/
def axisName : AxisT → String
  | .X => "X"
  | .Y => "Y"
  | .Z => "Z"

/-- Modelled from the spec: the axis-to-channel-index mappings `Axis_Ch123`
and `Axis_Ch456` come from `LabExT.Movement.config`, which is not among the
sources.  Per the spec, the mapping assigns the logical roles X, Y, Z to the
physical channel indices of the first (channels 1-3) resp. second
(channels 4-6) bus module of the controller. -/
def axisIndex (openNewConnection : Bool) : AxisT → Nat
  | .X => if openNewConnection then 0 else 3
  | .Y => if openNewConnection then 1 else 4
  | .Z => if openNewConnection then 2 else 5

/-- The two members of the vendor enumeration `ctl.MoveMode` that the driver
names (`CL_RELATIVE`, `CL_ABSOLUTE`).  The vendor library is external to the
repository; its enumerations are opaque constants looked up by name. -/
inductive MoveModeT
  | CL_RELATIVE
  | CL_ABSOLUTE
deriving DecidableEq, Repr

/-- The vendor property identifiers the driver uses in `SetProperty` calls. -/
inductive PropId
  | MOVE_VELOCITY
  | MOVE_ACCELERATION
  | MOVE_MODE
deriving DecidableEq, Repr

/-- One observable call into the vendor capability layer. -/
inductive HwCall
  | openCall (locator : String)
  | closeCall (handle : Option ℤ)
  | getSensor (channel : Nat)
  | setI64 (channel : Nat) (prop : PropId) (value : ℤ)
  | setMoveMode (channel : Nat) (mode : MoveModeT)
  | moveCall (channel : Nat) (valuePm : ℤ)
deriving DecidableEq, Repr

/-- The Python exceptions the embedded code can raise. -/
inductive PyErr
  | stageError (msg : String)
  | valueError (msg : String)
  | keyError
  | ctlError
  | driverNotLoaded
  | notConnected
deriving DecidableEq, Repr

/-- A Python value passed to the `movement_mode` setter: either a genuine
`ctl.MoveMode` member or any other object (carrying its `str()` rendering). -/
inductive PyVal
  | mode (m : MoveModeT)
  | other (txt : String)
deriving DecidableEq, Repr

/-- Source `Stage6DSmarActMCS2._Channel`: one synchronous channel (one axis).
`index` is `self._handle` (the channel index), the remaining fields are the
cached bookkeeping attributes set in `__init__`. -/
structure Channel where
  index : Nat
  name : String
  movementMode : MoveModeT
  speedCache : ℚ
  accelCache : ℚ
deriving DecidableEq, Repr

/-- Source `_Channel.__init__`: caches start at `CL_RELATIVE` movement mode and
zero speed/acceleration. -/
def Channel.init (index : Nat) (name : String) : Channel :=
  { index := index, name := name, movementMode := .CL_RELATIVE,
    speedCache := 0, accelCache := 0 }

/-- Source `_Channel.LINEAR_SENSORS` (the driver-loaded branch). -/
def LINEAR_SENSORS : List String :=
  ["SL...S1SS", "SL...S1ME", "SL...S1SC1", "SL...T1SS", "SL...D1SS",
   "SL...D1SC2", "SL...D1SC1", "SL...D1ME", "CT002/AT002"]

/-- The `movement_mode` property setter: rejects anything that is not an
instance of `ctl.MoveMode` with `ValueError`, otherwise issues the
`MOVE_MODE` set-property call and updates the cache.  Returns the result
together with the trace of vendor calls issued. -/
def Channel.setMovementMode (ch : Channel) (v : PyVal) :
    Except PyErr Channel × List HwCall :=
  match v with
  | .mode m => (.ok { ch with movementMode := m }, [.setMoveMode ch.index m])
  | .other txt => (.error (.valueError ("Invalid movement mode " ++ txt)), [])

/-- Source `_Channel.move`: sets the movement mode through the property setter
(which always accepts a genuine `ctl.MoveMode`) and then issues the
`ctl.Move` call with the value converted to picometers. -/
def Channel.move (ch : Channel) (value : ℚ) (mode : MoveModeT) :
    Channel × List HwCall :=
  match ch.setMovementMode (.mode mode) with
  | (.ok ch2, t) => (ch2, t ++ [.moveCall ch.index (toPicometer value)])
  | (.error _, t) => (ch, t)

/-- The mutable state of one `Stage6DSmarActMCS2` object.  `openNewConnection`
and `address` are fixed by `__init__`; `connected`, `handle` and `channels`
are the fields `connect`/`disconnect` mutate.  `connected := false`,
`handle := none` and `channels := []` is the freshly constructed state
(modelled from the spec for the base-class part: the `Stage` base class,
which initializes `connected` to false, is not among the sources). -/
structure StageState where
  address : String
  openNewConnection : Bool
  connected : Bool
  handle : Option ℤ
  channels : List (AxisT × Channel)
deriving DecidableEq, Repr

/-- Source `Stage6DSmarActMCS2.__init__`: picks the axis mapping from the address
suffix and raises `StageError` when neither suffix occurs. -/
def mkStage (address : String) : Except PyErr StageState :=
  if "Ch1-3".data <:+: address.data then
    .ok { address := address, openNewConnection := true, connected := false,
          handle := none, channels := [] }
  else if "Ch4-6".data <:+: address.data then
    .ok { address := address, openNewConnection := false, connected := false,
          handle := none, channels := [] }
  else
    .error (.stageError "Stage address does not contain channel suffix.")

/-- Replies of the opaque vendor capability layer, plus the process-wide
driver-loaded flag (the `@assert_driver_loaded` decorator of the base class
is modelled from the spec: hardware-touching operations fail fast when the
capability layer did not load). -/
structure Env where
  driverLoaded : Bool
  openResult : ℤ
  sensorOf : Nat → String
  setPropOk : Bool

/-- Python `str.removesuffix`. -/
def removeSuffix (s suffix : String) : String :=
  if s.endsWith suffix then s.dropRight suffix.length else s

/-- Source `Stage6DSmarActMCS2._open_system`: calls `ctl.Open` on the address with
the `_Ch1-3` suffix removed; a falsy (zero) handle becomes `None`. -/
def openSystem (env : Env) (address : String) : Option ℤ × List HwCall :=
  (if env.openResult ≠ 0 then some env.openResult else none,
   [.openCall (removeSuffix address "_Ch1-3")])

/-- Dictionary lookup `self.channels[axis]`. -/
def getCh (cs : List (AxisT × Channel)) (a : AxisT) : Option Channel :=
  (cs.find? (fun p => p.1 == a)).map (fun p => p.2)

/-- Dictionary update `self.channels[axis] = ch` (the key is present). -/
def setCh (cs : List (AxisT × Channel)) (a : AxisT) (c : Channel) :
    List (AxisT × Channel) :=
  cs.map (fun p => if p.1 == a then (a, c) else p)

/-- The `speed` property setter: converts to picometers and issues the
`MOVE_VELOCITY` set-property call; the vendor call may raise (per `Env`),
in which case the cache is not updated. -/
def Channel.setSpeed (env : Env) (ch : Channel) (umps : ℚ) :
    Except PyErr Channel × List HwCall :=
  let pm := toPicometer umps
  if env.setPropOk then
    (.ok { ch with speedCache := umps }, [.setI64 ch.index .MOVE_VELOCITY pm])
  else
    (.error .ctlError, [.setI64 ch.index .MOVE_VELOCITY pm])

/-- The `acceleration` property setter, analogous to `speed`. -/
def Channel.setAcceleration (env : Env) (ch : Channel) (umps2 : ℚ) :
    Except PyErr Channel × List HwCall :=
  let pm := toPicometer umps2
  if env.setPropOk then
    (.ok { ch with accelCache := umps2 },
     [.setI64 ch.index .MOVE_ACCELERATION pm])
  else
    (.error .ctlError, [.setI64 ch.index .MOVE_ACCELERATION pm])

/-- Assignment `self.channels[a].speed = v` on the channel dictionary: `KeyError` when
the axis is missing. -/
def setSpeedAt (env : Env) (cs : List (AxisT × Channel)) (a : AxisT)
    (v : ℚ) : Except PyErr (List (AxisT × Channel)) × List HwCall :=
  match getCh cs a with
  | none => (.error .keyError, [])
  | some ch =>
    match Channel.setSpeed env ch v with
    | (.ok ch2, t) => (.ok (setCh cs a ch2), t)
    | (.error e, t) => (.error e, t)

/-- Assignment `self.channels[a].acceleration = v` on the channel dictionary. -/
def setAccelAt (env : Env) (cs : List (AxisT × Channel)) (a : AxisT)
    (v : ℚ) : Except PyErr (List (AxisT × Channel)) × List HwCall :=
  match getCh cs a with
  | none => (.error .keyError, [])
  | some ch =>
    match Channel.setAcceleration env ch v with
    | (.ok ch2, t) => (.ok (setCh cs a ch2), t)
    | (.error e, t) => (.error e, t)

/-- Source `Stage6DSmarActMCS2.set_speed_xy` (body): sets the X speed, then the Y
speed; an exception from the first call prevents the second. -/
def set_speed_xy (env : Env) (cs : List (AxisT × Channel)) (umps : ℚ) :
    Except PyErr (List (AxisT × Channel)) × List HwCall :=
  match setSpeedAt env cs .X umps with
  | (.error e, t) => (.error e, t)
  | (.ok cs1, t1) =>
    match setSpeedAt env cs1 .Y umps with
    | (.error e, t2) => (.error e, t1 ++ t2)
    | (.ok cs2, t2) => (.ok cs2, t1 ++ t2)

/-- Source `Stage6DSmarActMCS2.set_speed_z` (body). -/
def set_speed_z (env : Env) (cs : List (AxisT × Channel)) (umps : ℚ) :
    Except PyErr (List (AxisT × Channel)) × List HwCall :=
  setSpeedAt env cs .Z umps

/-- Source `Stage6DSmarActMCS2.set_acceleration_xy` (body). -/
def set_acceleration_xy (env : Env) (cs : List (AxisT × Channel))
    (umps2 : ℚ) : Except PyErr (List (AxisT × Channel)) × List HwCall :=
  match setAccelAt env cs .X umps2 with
  | (.error e, t) => (.error e, t)
  | (.ok cs1, t1) =>
    match setAccelAt env cs1 .Y umps2 with
    | (.error e, t2) => (.error e, t1 ++ t2)
    | (.ok cs2, t2) => (.ok cs2, t1 ++ t2)

/-- Source `Stage6DSmarActMCS2._raise_if_sensor_non_linear`: walks the channel
dictionary in insertion order, reads each channel's positioner type name and
raises `StageError` at the first sensor not in `LINEAR_SENSORS`. -/
def raiseIfSensorNonLinear (env : Env) (address : String) :
    List (AxisT × Channel) → Except PyErr Unit × List HwCall
  | [] => (.ok (), [])
  | (a, ch) :: rest =>
    if env.sensorOf ch.index ∈ LINEAR_SENSORS then
      match raiseIfSensorNonLinear env address rest with
      | (r, t) => (r, .getSensor ch.index :: t)
    else
      (.error (.stageError ("Channel " ++ axisName a ++ " of stage " ++
          address ++ " has no supported linear sensor!")),
       [.getSensor ch.index])

/-- Loop `for ch in self.Axis: self.channels[ch] = self._Channel(self, ch.value, ch.name)`. -/
def buildChannels (openNewConnection : Bool) : List (AxisT × Channel) :=
  [(.X, Channel.init (axisIndex openNewConnection .X) "X"),
   (.Y, Channel.init (axisIndex openNewConnection .Y) "Y"),
   (.Z, Channel.init (axisIndex openNewConnection .Z) "Z")]

/-- The `try` block of `connect`: sensor validation, `connected = True`, and
the default actuation parameters (XY speed 300, Z speed 20, XY
acceleration 0).  Any exception escapes to the caller's handler. -/
def connectTry (env : Env) (s : StageState) :
    Except PyErr StageState × List HwCall :=
  match raiseIfSensorNonLinear env s.address s.channels with
  | (.error e, t0) => (.error e, t0)
  | (.ok _, t0) =>
    let s1 := { s with connected := true }
    match set_speed_xy env s1.channels 300 with
    | (.error e, t1) => (.error e, t0 ++ t1)
    | (.ok cs1, t1) =>
      match set_speed_z env cs1 20 with
      | (.error e, t2) => (.error e, t0 ++ t1 ++ t2)
      | (.ok cs2, t2) =>
        match set_acceleration_xy env cs2 0 with
        | (.error e, t3) => (.error e, t0 ++ t1 ++ t2 ++ t3)
        | (.ok cs3, t3) => (.ok { s1 with channels := cs3 },
                            t0 ++ t1 ++ t2 ++ t3)

/-- Source `Stage6DSmarActMCS2.connect`: returns the post-state, the Python result
(`Ok b` for a normal return of `b`, `error e` for a raised exception) and
the trace of vendor calls. -/
def connect (env : Env) (s : StageState) :
    StageState × Except PyErr Bool × List HwCall :=
  if env.driverLoaded = false then (s, .error .driverNotLoaded, [])
  else if s.connected then (s, .ok true, [])
  else
    let opened : StageState × Option PyErr × List HwCall :=
      if s.openNewConnection then
        match openSystem env s.address with
        | (h, t) =>
          if h ≠ some 1 then
            ({ s with handle := h },
             some (.stageError "Expected the handle to be 1."), t)
          else ({ s with handle := h }, none, t)
      else ({ s with handle := some 1 }, none, [])
    match opened with
    | (s1, some e, t) => (s1, .error e, t)
    | (s1, none, t) =>
      if s1.handle ≠ none then
        let s2 := { s1 with channels := buildChannels s1.openNewConnection }
        match connectTry env s2 with
        | (.ok s3, t2) => (s3, .ok true, t ++ t2)
        | (.error e, t2) =>
          ({ s2 with connected := false, handle := none, channels := [] },
           .error e, t ++ t2)
      else ({ s1 with connected := false }, .ok false, t)

/-- Source `Stage6DSmarActMCS2.disconnect`: only a stage that opened its own
connection issues `ctl.Close`; both variants then clear `connected` and
`handle`.  The decorators (driver loaded, stage connected) are modelled from
the spec, the base class being absent from the sources. -/
def disconnect (driverLoaded : Bool) (s : StageState) :
    Except PyErr StageState × List HwCall :=
  if driverLoaded = false then (.error .driverNotLoaded, [])
  else if s.connected = false then (.error .notConnected, [])
  else
    (.ok { s with connected := false, handle := none },
     if s.openNewConnection then [.closeCall s.handle] else [])

/-- Source `_Channel.humanized_status`: decodes a status bitmask against the vendor
enumeration `ctl.ChannelState` (opaque to the repository, supplied here as a
list of name/bit pairs); when no known bit is set the placeholder entry is
returned. -/
def humanized_status (flags : List (String × Nat)) (code : Nat) :
    List String :=
  let states := (flags.filter (fun f => (code &&& f.2) != 0)).map (fun f => f.1)
  if states = [] then ["Unknown status code: " ++ toString code] else states

/-- Source `Stage6DSmarActMCS2.get_status`: humanized status of every channel, as a
function of the status codes the hardware currently reports. -/
def get_status (flags : List (String × Nat)) (codes : List Nat) :
    List (List String) :=
  codes.map (humanized_status flags)

/-- Source `Stage6DSmarActMCS2.is_stopped`:
`not any('ACTIVELY_MOVING' in status for status in self.get_status())`. -/
def is_stopped (flags : List (String × Nat)) (codes : List Nat) : Bool :=
  !((get_status flags codes).any (fun status => status.contains "ACTIVELY_MOVING"))

/-- The two observable actions of one iteration of `_wait_for_stopping`:
the `time.sleep(delay)` call and the `is_stopped` status poll. -/
inductive WaitEv
  | sleepEv
  | checkEv
deriving DecidableEq, Repr

/-- Source `Stage6DSmarActMCS2._wait_for_stopping`, fuel-bounded: `codesAt k` gives
the channel status codes the k-th poll observes.  Every iteration sleeps,
then polls; the loop exits at the first poll with `is_stopped` true.  The
returned value is the index of the successful poll (`none`: the fuel ran out
with the loop still spinning — the source loop itself has no timeout). -/
def waitFrom (flags : List (String × Nat)) (codesAt : Nat → List Nat) :
    Nat → Nat → Option Nat × List WaitEv
  | 0, _ => (none, [])
  | fuel + 1, k =>
    if is_stopped flags (codesAt k) then (some k, [.sleepEv, .checkEv])
    else
      match waitFrom flags codesAt fuel (k + 1) with
      | (r, t) => (r, .sleepEv :: .checkEv :: t)

/-- Entry point of `_wait_for_stopping`: the loop started at the first poll. -/
def waitForStopping (flags : List (String × Nat)) (codesAt : Nat → List Nat)
    (fuel : Nat) : Option Nat × List WaitEv :=
  waitFrom flags codesAt fuel 0

/-- One axis step of `move_absolute`: skipped when the target is `None`,
otherwise a channel-dictionary lookup followed by `_Channel.move` in
`CL_ABSOLUTE` mode. -/
def moveAxisAbs (cs : List (AxisT × Channel)) (a : AxisT) :
    Option ℚ → Except PyErr (List (AxisT × Channel) × List HwCall)
  | none => .ok (cs, [])
  | some v =>
    match getCh cs a with
    | none => .error .keyError
    | some ch =>
      match ch.move v .CL_ABSOLUTE with
      | (ch2, t) => .ok (setCh cs a ch2, t)

/-- Source `Stage6DSmarActMCS2.move_absolute` (the command-issuing part, on the
channel dictionary of a connected stage): per-axis absolute moves in the
fixed order X, Y, Z, each skipped when its target is `None`.  The optional
`wait_for_stopping=True` phase afterwards is the polling loop modelled by
`waitForStopping`. -/
def move_absolute (cs : List (AxisT × Channel)) (x y z : Option ℚ) :
    Except PyErr (List (AxisT × Channel) × List HwCall) :=
  match moveAxisAbs cs .X x with
  | .error e => .error e
  | .ok (cs1, t1) =>
    match moveAxisAbs cs1 .Y y with
    | .error e => .error e
    | .ok (cs2, t2) =>
      match moveAxisAbs cs2 .Z z with
      | .error e => .error e
      | .ok (cs3, t3) => .ok (cs3, t1 ++ t2 ++ t3)

/-- The `ctl.Move` calls of a trace. -/
def moveCallsOf (t : List HwCall) : List HwCall :=
  t.filter (fun c => match c with | .moveCall _ _ => true | _ => false)

/-- The `ctl.Open` calls of a trace. -/
def openCallsOf (t : List HwCall) : List HwCall :=
  t.filter (fun c => match c with | .openCall _ => true | _ => false)

/-- The `ctl.Close` calls of a trace. -/
def closeCallsOf (t : List HwCall) : List HwCall :=
  t.filter (fun c => match c with | .closeCall _ => true | _ => false)

/-- An element of the locator list of `find_stage_addresses` after the
rewriting loop: either a string, or the literal empty Python list `[]` that
the loop stores in place of a locator that does not report two modules. -/
inductive Entry
  | str (s : String)
  | emptyList
deriving DecidableEq, Repr

/-- Python `sorted` applied to the rewritten locator list.  CPython's sort
compares adjacent elements; `list() < str()` raises `TypeError`, and a list
holding both kinds always has an adjacent mixed pair somewhere during the
scan, so: all strings — lexicographic sort; all empty lists — unchanged;
mixed — `TypeError`. -/
def pySorted (l : List Entry) : Except Unit (List Entry) :=
  let strs := l.filterMap (fun e => match e with | .str s => some s | .emptyList => none)
  if strs.length = l.length then
    .ok ((List.insertionSort (fun a b => a ≤ b) strs).map Entry.str)
  else if strs.length = 0 then .ok l
  else .error ()

/-- The rewriting loop of `find_stage_addresses`: iterates over a copy of the
locator list; a locator whose probe reports exactly two bus modules is
replaced in place by `locator + '_Ch1-3'` and `locator + '_Ch4-6'` is
appended at the end, any other locator is replaced in place by the empty
list `[]`.  `modules loc` is the probed `NUMBER_OF_BUS_MODULES` value. -/
def splitLocators (modules : String → Nat) (locators : List String) :
    List Entry :=
  (locators.map (fun loc =>
      if modules loc = 2 then Entry.str (loc ++ "_Ch1-3") else Entry.emptyList))
    ++ ((locators.filter (fun loc => modules loc = 2)).map
        (fun loc => Entry.str (loc ++ "_Ch4-6")))

/-- Source `Stage6DSmarActMCS2.find_stage_addresses`, as a function of the locator
list obtained from `ctl.FindDevices()` (an empty buffer yields `[]`) and of
the per-locator probed module count. -/
def find_stage_addresses (modules : String → Nat) (locators : List String) :
    Except Unit (List Entry) :=
  if locators = [] then .ok []
  else pySorted (splitLocators modules locators)

/-- Specification-side helper: the `ctl.Move` call an axis of `move_absolute`
contributes — none when the target is the `None` sentinel. -/
def optMove (ch : Channel) : Option ℚ → List HwCall
  | none => []
  | some v => [.moveCall ch.index (toPicometer v)]

/-- Concrete environment for exercising `connect`: the vendor open call
returns handle 2 instead of the expected sentinel 1. -/
def envBadHandle : Env :=
  { driverLoaded := true, openResult := 2,
    sensorOf := fun _ => "SL...S1SS", setPropOk := true }

/-- Concrete environment in which `connect` fully succeeds. -/
def envGood : Env :=
  { driverLoaded := true, openResult := 1,
    sensorOf := fun _ => "SL...S1SS", setPropOk := true }

/-- Freshly constructed primary (session-owning) stage. -/
def stagePrimaryFresh : StageState :=
  { address := "L_Ch1-3", openNewConnection := true, connected := false,
    handle := none, channels := [] }

/-- Freshly constructed secondary (session-borrowing) stage. -/
def stageSecondaryFresh : StageState :=
  { address := "L_Ch4-6", openNewConnection := false, connected := false,
    handle := none, channels := [] }

/-- Connected secondary stage, holding the borrowed sentinel handle. -/
def stageSecondaryConnected : StageState :=
  { address := "L_Ch4-6", openNewConnection := false, connected := true,
    handle := some 1, channels := buildChannels false }

/-- Concrete status flag table used by witnesses: the one bit the driver
tests by name plus a second, unrelated bit. -/
def flagsW : List (String × Nat) :=
  [("ACTIVELY_MOVING", 4), ("SENSOR_PRESENT", 32)]

/-- Concrete status-poll oracle: the first poll still observes the moving
bit, every later poll observes the all-clear zero code. -/
def codesW : Nat → List Nat :=
  fun k => if k = 0 then [4, 0, 0] else [0, 0, 0]

/-- Concrete module-count probe for the discovery counterexample: locator
`"A"` reports two bus modules, every other locator reports one. -/
def modulesCx : String → Nat :=
  fun s => if s = "A" then 2 else 1

/-! ## Helper lemmas -/

/-- Truncation toward zero is an odd function. -/
theorem pyTrunc_neg (q : ℚ) : pyTrunc (-q) = -pyTrunc q := by
  rcases lt_trichotomy q 0 with h | h | h
  · have h1 : ¬(0 ≤ q) := not_le.mpr h
    have h2 : 0 ≤ -q := by linarith
    simp [pyTrunc, h1, h2, Int.floor_neg]
  · subst h; simp [pyTrunc]
  · have h1 : 0 ≤ q := le_of_lt h
    have h2 : ¬(0 ≤ -q) := by simp [h]
    simp [pyTrunc, h1, h2, Int.ceil_neg]

/-- Truncation is the identity on integers. -/
theorem pyTrunc_intCast (k : ℤ) : pyTrunc (k : ℚ) = k := by
  rcases le_or_lt 0 (k : ℚ) with h | h
  · simp [pyTrunc, h]
  · simp [pyTrunc, not_le.mpr h]

/-! ## Claims -/

/-- C4, counterexample.  The claim says `to_native(x) = round(x * 1e6)`
(nearest-integer rounding); the source computes `int(micrometer * 1e6)`,
which truncates toward zero.  At the micrometer value 27e-7 the product is
2.7: truncation yields 2 while rounding to the nearest integer yields 3. -/
theorem toPicometer_ne_round :
    toPicometer (27 / 10000000) ≠ round ((27 : ℚ) / 10000000 * 1000000) := by
  have h1 : toPicometer (27 / 10000000) = 2 := by
    norm_num [toPicometer, pyTrunc]
  have h2 : round ((27 : ℚ) / 10000000 * 1000000) = 3 := by
    norm_num [round_eq]
  rw [h1, h2]
  decide

/-- C4, amended.  The conversion to hardware-native picometer integers is
`to_native(x) = trunc(x * 1e6)`, truncation toward zero (Python `int()`):
on nonnegative inputs it is the floor of `x * 1e6`, and it is an odd
function, so negative inputs are truncated toward zero as well. -/
theorem toPicometer_truncates (x : ℚ) :
    (0 ≤ x → toPicometer x = ⌊x * 1000000⌋) ∧
    toPicometer (-x) = -toPicometer x := by
  constructor
  · intro hx
    have h : (0 : ℚ) ≤ x * 1000000 := by positivity
    simp [toPicometer, pyTrunc, h]
  · have h : -x * 1000000 = -(x * 1000000) := by ring
    rw [toPicometer, h, pyTrunc_neg, toPicometer]

/-- C4, witness for the amended theorem at the counterexample's input. -/
theorem toPicometer_truncates_witness :
    toPicometer (27 / 10000000) = ⌊(27 : ℚ) / 10000000 * 1000000⌋ ∧
    toPicometer (-(27 / 10000000)) = -toPicometer (27 / 10000000) :=
  ⟨(toPicometer_truncates (27 / 10000000)).1 (by norm_num),
   (toPicometer_truncates (27 / 10000000)).2⟩

/-- C5.  For every micrometer value `v` that is exactly representable at the
hardware's picometer granularity (`v * 1e6` is an integer — in particular
every integral micrometer value), the round trip
`to_si(to_native(v)) = v` holds: truncation loses nothing on such inputs. -/
theorem toMicrometer_toPicometer_roundtrip (v : ℚ)
    (h : ∃ k : ℤ, v * 1000000 = (k : ℚ)) :
    toMicrometer (toPicometer v) = v := by
  obtain ⟨k, hk⟩ := h
  rw [toPicometer, hk, pyTrunc_intCast, toMicrometer, ← hk]
  ring

/-- C5, witness at the integral micrometer value 5. -/
theorem toMicrometer_toPicometer_roundtrip_witness :
    toMicrometer (toPicometer 5) = 5 :=
  toMicrometer_toPicometer_roundtrip 5 ⟨5000000, by norm_num⟩

/-- C8.  Every value that is not a `ctl.MoveMode` member (in this embedding
the vendor enumeration has exactly the two members the driver names,
`CL_RELATIVE` and `CL_ABSOLUTE`) is rejected by the `movement_mode` setter
with a `ValueError`, and no vendor set-property call is issued for it. -/
theorem setMovementMode_rejects_non_mode (ch : Channel) (v : PyVal)
    (h : ∀ m : MoveModeT, v ≠ PyVal.mode m) :
    (∃ msg, (ch.setMovementMode v).1 = .error (.valueError msg)) ∧
    (ch.setMovementMode v).2 = [] := by
  cases v with
  | mode m => exact absurd rfl (h m)
  | other txt => exact ⟨⟨"Invalid movement mode " ++ txt, rfl⟩, rfl⟩

/-- C8, witness: the integer-like foreign value rendered `"7"` is rejected
by the setter of channel X without any vendor call. -/
theorem setMovementMode_rejects_non_mode_witness :
    (∃ msg, ((Channel.init 0 "X").setMovementMode (.other "7")).1 =
        .error (.valueError msg)) ∧
    ((Channel.init 0 "X").setMovementMode (.other "7")).2 = [] :=
  setMovementMode_rejects_non_mode (Channel.init 0 "X") (.other "7")
    (fun m => by simp)

/-- C9.  The humanized status list is never empty: when no known flag bit of
the status code is set the single placeholder entry is returned; in
particular the all-clear code 0 (no bit set) yields exactly
`["Unknown status code: 0"]`, so the placeholder is not reserved for
unrecognized nonzero codes. -/
theorem humanized_status_nonempty (flags : List (String × Nat)) :
    (∀ code, humanized_status flags code ≠ []) ∧
    humanized_status flags 0 = ["Unknown status code: 0"] := by
  constructor
  · intro code
    unfold humanized_status
    simp only []
    split
    · simp
    · next h => exact h
  · have hf : flags.filter (fun f => (0 &&& f.2) != 0) = [] := by
      apply List.filter_eq_nil_iff.mpr
      intro a _
      simp [Nat.zero_and]
    simp [humanized_status, hf]
    rfl

/-- C6.  On the channel dictionary of a connected stage, `move_absolute`
issues its `ctl.Move` commands in the fixed order X, Y, Z, skipping every
axis whose target is the `None` sentinel; in particular the call with
`x = 5, y = None, z = None` issues exactly the single move command of the X
channel, and none addressed to the Y or Z channel index (when those indices
differ from X's, as they do on real hardware). -/
theorem move_absolute_order_and_skip (chx chy chz : Channel)
    (hxy : chy.index ≠ chx.index) (hxz : chz.index ≠ chx.index) :
    (∀ x y z : Option ℚ, ∃ r,
        move_absolute [(AxisT.X, chx), (AxisT.Y, chy), (AxisT.Z, chz)]
            x y z = .ok r ∧
        moveCallsOf r.2 = optMove chx x ++ optMove chy y ++ optMove chz z) ∧
    (∃ r, move_absolute [(AxisT.X, chx), (AxisT.Y, chy), (AxisT.Z, chz)]
            (some 5) none none = .ok r ∧
        moveCallsOf r.2 = [.moveCall chx.index (toPicometer 5)] ∧
        (r.2.filter (fun c => c == .moveCall chy.index (toPicometer 5))) = [] ∧
        (r.2.filter (fun c => c == .moveCall chz.index (toPicometer 5))) = []) := by
  constructor
  · intro x y z
    cases x <;> cases y <;> cases z <;>
      exact ⟨_, rfl, rfl⟩
  · refine ⟨_, rfl, rfl, ?_, ?_⟩ <;>
      simp [Channel.move, Channel.setMovementMode, hxy.symm, hxz.symm]

/-- C6, witness on the channels a primary stage's `connect` builds
(channel indices 0, 1, 2). -/
theorem move_absolute_order_and_skip_witness :
    (∀ x y z : Option ℚ, ∃ r,
        move_absolute [(AxisT.X, Channel.init 0 "X"),
            (AxisT.Y, Channel.init 1 "Y"), (AxisT.Z, Channel.init 2 "Z")]
            x y z = .ok r ∧
        moveCallsOf r.2 = optMove (Channel.init 0 "X") x ++
          optMove (Channel.init 1 "Y") y ++ optMove (Channel.init 2 "Z") z) ∧
    (∃ r, move_absolute [(AxisT.X, Channel.init 0 "X"),
            (AxisT.Y, Channel.init 1 "Y"), (AxisT.Z, Channel.init 2 "Z")]
            (some 5) none none = .ok r ∧
        moveCallsOf r.2 = [.moveCall (Channel.init 0 "X").index (toPicometer 5)] ∧
        (r.2.filter (fun c =>
            c == .moveCall (Channel.init 1 "Y").index (toPicometer 5))) = [] ∧
        (r.2.filter (fun c =>
            c == .moveCall (Channel.init 2 "Z").index (toPicometer 5))) = []) :=
  move_absolute_order_and_skip (Channel.init 0 "X") (Channel.init 1 "Y")
    (Channel.init 2 "Z") (by decide) (by decide)

/-- C7.  A connected secondary (borrower) stage's `disconnect` issues no
vendor call at all — in particular no `ctl.Close` on the shared handle —
and merely clears its `connected` flag and handle reference, while a
connected primary (owner) stage's `disconnect` issues exactly the one
`ctl.Close` on its handle. -/
theorem disconnect_close_discipline (dl : Bool) (s : StageState)
    (hdl : dl = true) (hc : s.connected = true) :
    (s.openNewConnection = false →
        (disconnect dl s).2 = [] ∧
        (disconnect dl s).1 = .ok { s with connected := false, handle := none }) ∧
    (s.openNewConnection = true →
        (disconnect dl s).2 = [.closeCall s.handle]) := by
  subst hdl
  refine ⟨fun h => ?_, fun h => ?_⟩ <;> simp [disconnect, hc, h]

/-- C7, witness on a concrete connected secondary stage. -/
theorem disconnect_close_discipline_witness :
    (stageSecondaryConnected.openNewConnection = false →
        (disconnect true stageSecondaryConnected).2 = [] ∧
        (disconnect true stageSecondaryConnected).1 =
          .ok { stageSecondaryConnected with connected := false, handle := none }) ∧
    (stageSecondaryConnected.openNewConnection = true →
        (disconnect true stageSecondaryConnected).2 =
          [.closeCall stageSecondaryConnected.handle]) :=
  disconnect_close_discipline true stageSecondaryConnected rfl rfl

/-- Helper: a successful poll index returned by the wait loop did observe
`is_stopped`. -/
theorem waitFrom_some_stopped (flags : List (String × Nat))
    (codesAt : Nat → List Nat) :
    ∀ fuel start k, (waitFrom flags codesAt fuel start).1 = some k →
      is_stopped flags (codesAt k) = true := by
  intro fuel
  induction fuel with
  | zero => intro start k h; simp [waitFrom] at h
  | succ n ih =>
    intro start k h
    by_cases hs : is_stopped flags (codesAt start) = true
    · simp [waitFrom, hs] at h
      subst h; exact hs
    · simp [waitFrom, hs] at h
      exact ih (start + 1) k h

/-- Helper: the wait loop succeeds as soon as its fuel covers some poll that
observes `is_stopped`. -/
theorem waitFrom_term (flags : List (String × Nat))
    (codesAt : Nat → List Nat) :
    ∀ fuel start, (∃ m, m < fuel ∧
        is_stopped flags (codesAt (start + m)) = true) →
      ((waitFrom flags codesAt fuel start).1).isSome = true := by
  intro fuel
  induction fuel with
  | zero => rintro start ⟨m, hm, _⟩; omega
  | succ n ih =>
    rintro start ⟨m, hm, hstop⟩
    by_cases hs : is_stopped flags (codesAt start) = true
    · simp [waitFrom, hs]
    · have hm0 : m ≠ 0 := by
        rintro rfl
        rw [Nat.add_zero] at hstop
        exact hs hstop
      have hrec : ((waitFrom flags codesAt n (start + 1)).1).isSome = true := by
        refine ih (start + 1) ⟨m - 1, by omega, ?_⟩
        have : start + 1 + (m - 1) = start + m := by omega
        rw [this]; exact hstop
      simp [waitFrom, hs]
      exact hrec

/-- C10.  The polling loop `_wait_for_stopping` (i) returns only at a poll
that observed `is_stopped` (no channel humanized status containing the
`ACTIVELY_MOVING` flag), (ii) always sleeps one delay period before its
first status check — its event trace starts with the sleep — and (iii)
having no timeout, it terminates (under some fuel bound) exactly when some
poll eventually observes `is_stopped`. -/
theorem wait_for_stopping_spec (flags : List (String × Nat))
    (codesAt : Nat → List Nat) :
    (∀ fuel k, (waitForStopping flags codesAt fuel).1 = some k →
        is_stopped flags (codesAt k) = true) ∧
    (∀ fuel, ((waitForStopping flags codesAt (fuel + 1)).2).head? =
        some WaitEv.sleepEv) ∧
    ((∃ fuel, ((waitForStopping flags codesAt fuel).1).isSome = true) ↔
        (∃ k, is_stopped flags (codesAt k) = true)) := by
  refine ⟨?_, ?_, ?_, ?_⟩
  · intro fuel k h
    exact waitFrom_some_stopped flags codesAt fuel 0 k h
  · intro fuel
    by_cases hs : is_stopped flags (codesAt 0) = true <;>
      simp [waitForStopping, waitFrom, hs]
  · rintro ⟨fuel, hsome⟩
    obtain ⟨k, hk⟩ := Option.isSome_iff_exists.mp hsome
    exact ⟨k, waitFrom_some_stopped flags codesAt fuel 0 k hk⟩
  · rintro ⟨k, hk⟩
    refine ⟨k + 1, waitFrom_term flags codesAt (k + 1) 0 ⟨k, by omega, ?_⟩⟩
    simpa using hk

/-- C10, witness: with a poll oracle whose second poll reports the all-clear
code on every channel, the loop returns at poll index 1, which indeed
observed `is_stopped`. -/
theorem wait_for_stopping_spec_witness :
    is_stopped flagsW (codesW 1) = true :=
  (wait_for_stopping_spec flagsW codesW).1 2 1 (by decide)

/-- Helper: a string never equals itself extended by a nonempty suffix. -/
theorem string_ne_self_append (s t : String) (h : t.length ≠ 0) :
    s ≠ s ++ t := by
  intro he
  have hl : s.length = (s ++ t).length := by rw [← he]
  rw [String.length_append] at hl
  omega

/-- C3, counterexample.  With two enumerated locators of which exactly one
(`"A"`) reports two bus modules, the rewriting loop leaves the single-module
locator `"B"` replaced by the empty Python list `[]`, and `sorted` over the
resulting mix of `str` and `list` raises `TypeError` — no sorted address
list is returned at all. -/
theorem find_stage_addresses_mixed_raises :
    find_stage_addresses modulesCx ["A", "B"] = .error () := by
  rfl

/-- C3, amended.  When the enumeration consists of exactly the one locator
that reports two bus modules, `find_stage_addresses` returns a
lexicographically sorted list containing both `<locator>_Ch1-3` and
`<locator>_Ch4-6` and not the unsuffixed original; with any additional
(necessarily single-module) locator present, the mixed-type `sorted` call
raises `TypeError` instead (see the counterexample). -/
theorem find_stage_addresses_single_dual (modules : String → Nat)
    (L : String) (h : modules L = 2) :
    ∃ ys : List String,
      find_stage_addresses modules [L] = .ok (ys.map Entry.str) ∧
      (L ++ "_Ch1-3") ∈ ys ∧ (L ++ "_Ch4-6") ∈ ys ∧ L ∉ ys ∧
      ys.Sorted (fun a b => a ≤ b) := by
  have hsplit : splitLocators modules [L] =
      [.str (L ++ "_Ch1-3"), .str (L ++ "_Ch4-6")] := by
    simp [splitLocators, h]
  refine ⟨List.insertionSort (fun a b => a ≤ b)
      [L ++ "_Ch1-3", L ++ "_Ch4-6"], ?_, ?_, ?_, ?_, ?_⟩
  · simp [find_stage_addresses, hsplit, pySorted]
  · exact (List.Perm.mem_iff (List.perm_insertionSort _ _)).mpr (by simp)
  · exact (List.Perm.mem_iff (List.perm_insertionSort _ _)).mpr (by simp)
  · intro hmem
    have : L ∈ [L ++ "_Ch1-3", L ++ "_Ch4-6"] :=
      (List.Perm.mem_iff (List.perm_insertionSort _ _)).mp hmem
    rcases List.mem_pair.mp this with he | he
    · exact string_ne_self_append L "_Ch1-3" (by decide) he
    · exact string_ne_self_append L "_Ch4-6" (by decide) he
  · exact List.sorted_insertionSort _ _

/-- C3, witness for the amended theorem at the locator `"LOC"`. -/
theorem find_stage_addresses_single_dual_witness :
    ∃ ys : List String,
      find_stage_addresses (fun _ => 2) ["LOC"] = .ok (ys.map Entry.str) ∧
      ("LOC" ++ "_Ch1-3") ∈ ys ∧ ("LOC" ++ "_Ch4-6") ∈ ys ∧ "LOC" ∉ ys ∧
      ys.Sorted (fun a b => a ≤ b) :=
  find_stage_addresses_single_dual (fun _ => 2) "LOC" rfl

/-- Helper: `openCallsOf` distributes over trace concatenation. -/
theorem openCallsOf_append (t1 t2 : List HwCall) :
    openCallsOf (t1 ++ t2) = openCallsOf t1 ++ openCallsOf t2 := by
  simp [openCallsOf, List.filter_append]

/-- Helper: sensor validation issues only sensor reads, never an open. -/
theorem openCallsOf_raise (env : Env) (address : String) :
    ∀ cs, openCallsOf (raiseIfSensorNonLinear env address cs).2 = [] := by
  intro cs
  induction cs with
  | nil => simp [raiseIfSensorNonLinear, openCallsOf]
  | cons p rest ih =>
    obtain ⟨a, ch⟩ := p
    by_cases h : env.sensorOf ch.index ∈ LINEAR_SENSORS
    · cases hr : raiseIfSensorNonLinear env address rest with
      | mk r t =>
        rw [hr] at ih
        simp only [raiseIfSensorNonLinear, if_pos h, hr]
        simpa [openCallsOf] using ih
    · simp [raiseIfSensorNonLinear, h, openCallsOf]

/-- Helper: a speed-setter call issues only a set-property call. -/
theorem openCallsOf_setSpeed (env : Env) (ch : Channel) (v : ℚ) :
    openCallsOf (Channel.setSpeed env ch v).2 = [] := by
  cases h : env.setPropOk <;> simp [Channel.setSpeed, openCallsOf, h]

/-- Helper: an acceleration-setter call issues only a set-property call. -/
theorem openCallsOf_setAcceleration (env : Env) (ch : Channel) (v : ℚ) :
    openCallsOf (Channel.setAcceleration env ch v).2 = [] := by
  cases h : env.setPropOk <;> simp [Channel.setAcceleration, openCallsOf, h]

/-- Helper: `setSpeedAt` never opens a session. -/
theorem openCallsOf_setSpeedAt (env : Env) (cs : List (AxisT × Channel))
    (a : AxisT) (v : ℚ) : openCallsOf (setSpeedAt env cs a v).2 = [] := by
  unfold setSpeedAt
  cases hg : getCh cs a with
  | none => simp [openCallsOf]
  | some ch =>
    dsimp only
    have e := openCallsOf_setSpeed env ch v
    rcases hs : Channel.setSpeed env ch v with ⟨r, t⟩
    rw [hs] at e
    cases r <;> simpa using e

/-- Helper: `setAccelAt` never opens a session. -/
theorem openCallsOf_setAccelAt (env : Env) (cs : List (AxisT × Channel))
    (a : AxisT) (v : ℚ) : openCallsOf (setAccelAt env cs a v).2 = [] := by
  unfold setAccelAt
  cases hg : getCh cs a with
  | none => simp [openCallsOf]
  | some ch =>
    dsimp only
    have e := openCallsOf_setAcceleration env ch v
    rcases hs : Channel.setAcceleration env ch v with ⟨r, t⟩
    rw [hs] at e
    cases r <;> simpa using e

/-- Helper: `set_speed_xy` never opens a session. -/
theorem openCallsOf_set_speed_xy (env : Env) (cs : List (AxisT × Channel))
    (v : ℚ) : openCallsOf (set_speed_xy env cs v).2 = [] := by
  unfold set_speed_xy
  cases h1 : setSpeedAt env cs .X v with
  | mk r1 t1 =>
    have e1 := openCallsOf_setSpeedAt env cs .X v
    rw [h1] at e1
    cases r1 with
    | error e => simpa using e1
    | ok cs1 =>
      cases h2 : setSpeedAt env cs1 .Y v with
      | mk r2 t2 =>
        have e2 := openCallsOf_setSpeedAt env cs1 .Y v
        rw [h2] at e2
        cases r2 <;> simp_all [openCallsOf_append]

/-- Helper: `set_speed_z` never opens a session. -/
theorem openCallsOf_set_speed_z (env : Env) (cs : List (AxisT × Channel))
    (v : ℚ) : openCallsOf (set_speed_z env cs v).2 = [] :=
  openCallsOf_setSpeedAt env cs .Z v

/-- Helper: `set_acceleration_xy` never opens a session. -/
theorem openCallsOf_set_acceleration_xy (env : Env)
    (cs : List (AxisT × Channel)) (v : ℚ) :
    openCallsOf (set_acceleration_xy env cs v).2 = [] := by
  unfold set_acceleration_xy
  cases h1 : setAccelAt env cs .X v with
  | mk r1 t1 =>
    have e1 := openCallsOf_setAccelAt env cs .X v
    rw [h1] at e1
    cases r1 with
    | error e => simpa using e1
    | ok cs1 =>
      cases h2 : setAccelAt env cs1 .Y v with
      | mk r2 t2 =>
        have e2 := openCallsOf_setAccelAt env cs1 .Y v
        rw [h2] at e2
        cases r2 <;> simp_all [openCallsOf_append]

/-- Helper: the try block of `connect` never opens a session, and on success
it preserves the handle it inherited. -/
theorem connectTry_spec (env : Env) (s : StageState) :
    openCallsOf (connectTry env s).2 = [] ∧
    (∀ s3, (connectTry env s).1 = .ok s3 → s3.handle = s.handle) := by
  unfold connectTry
  cases hr : raiseIfSensorNonLinear env s.address s.channels with
  | mk r0 t0 =>
    have e0 := openCallsOf_raise env s.address s.channels
    rw [hr] at e0
    cases r0 with
    | error e => simpa using e0
    | ok u =>
      cases h1 : set_speed_xy env ({ s with connected := true } : StageState).channels 300 with
      | mk r1 t1 =>
        have e1 := openCallsOf_set_speed_xy env ({ s with connected := true } : StageState).channels 300
        rw [h1] at e1
        cases r1 with
        | error e => simp_all [openCallsOf_append]
        | ok cs1 =>
          cases h2 : set_speed_z env cs1 20 with
          | mk r2 t2 =>
            have e2 := openCallsOf_set_speed_z env cs1 20
            rw [h2] at e2
            cases r2 with
            | error e => simp_all [openCallsOf_append]
            | ok cs2 =>
              cases h3 : set_acceleration_xy env cs2 0 with
              | mk r3 t3 =>
                have e3 := openCallsOf_set_acceleration_xy env cs2 0
                rw [h3] at e3
                cases r3 with
                | error e => simp_all [openCallsOf_append]
                | ok cs3 => simp_all [openCallsOf_append]

/-- Helper: `openCallsOf` keeps an open call at the head. -/
theorem openCallsOf_cons_open (l : String) (t : List HwCall) :
    openCallsOf (.openCall l :: t) = .openCall l :: openCallsOf t := by
  simp [openCallsOf]

/-- Helper: `openCallsOf` of the empty trace. -/
theorem openCallsOf_nil : openCallsOf [] = [] := rfl

/-- C2.  A primary stage's `connect` (address suffix `_Ch1-3`,
`open_new_connection` true) issues exactly one vendor open call — on the
address with the suffix stripped — and raises the fatal
`StageError("Expected the handle to be 1.")` whenever the handle the open
call returned differs from the sentinel 1; a secondary stage's `connect`
(suffix `_Ch4-6`) issues no open call at all and, when it returns
successfully, holds the adopted sentinel handle 1. -/
theorem connect_open_discipline (env : Env) (s : StageState)
    (hd : env.driverLoaded = true) (hc : s.connected = false) :
    (s.openNewConnection = true →
        openCallsOf (connect env s).2.2 =
          [HwCall.openCall (removeSuffix s.address "_Ch1-3")] ∧
        (env.openResult ≠ 1 →
          (connect env s).2.1 =
            .error (.stageError "Expected the handle to be 1."))) ∧
    (s.openNewConnection = false →
        openCallsOf (connect env s).2.2 = [] ∧
        ((connect env s).2.1 = .ok true →
          (connect env s).1.handle = some 1)) := by
  constructor
  · intro hp
    by_cases h1 : env.openResult = 1
    · have hred : connect env s =
          (match connectTry env
              { s with handle := some 1,
                       channels := buildChannels s.openNewConnection } with
           | (.ok s3, t2) =>
             (s3, .ok true, [HwCall.openCall (removeSuffix s.address "_Ch1-3")] ++ t2)
           | (.error e, t2) =>
             ({ s with handle := none, channels := [], connected := false },
              .error e,
              [HwCall.openCall (removeSuffix s.address "_Ch1-3")] ++ t2)) := by
        simp [connect, hd, hc, hp, openSystem, h1]
      rcases hct : connectTry env
          { s with handle := some 1,
                   channels := buildChannels s.openNewConnection } with ⟨r, t2⟩
      have hopen := (connectTry_spec env
          { s with handle := some 1,
                   channels := buildChannels s.openNewConnection }).1
      rw [hct] at hopen hred
      dsimp only at hopen
      cases r <;>
        simp [hred, openCallsOf_append, openCallsOf_cons_open, openCallsOf_nil,
          hopen, h1]
    · by_cases h0 : env.openResult = 0
      · have hred : connect env s =
            ({ s with handle := none },
             .error (.stageError "Expected the handle to be 1."),
             [HwCall.openCall (removeSuffix s.address "_Ch1-3")]) := by
          simp [connect, hd, hc, hp, openSystem, h0]
        simp [hred, openCallsOf_cons_open, openCallsOf_nil]
      · have hred : connect env s =
            ({ s with handle := some env.openResult },
             .error (.stageError "Expected the handle to be 1."),
             [HwCall.openCall (removeSuffix s.address "_Ch1-3")]) := by
          simp [connect, hd, hc, hp, openSystem, h0, h1]
        simp [hred, openCallsOf_cons_open, openCallsOf_nil]
  · intro hp
    have hred : connect env s =
        (match connectTry env
            { s with handle := some 1, channels := buildChannels false } with
         | (.ok s3, t2) => (s3, .ok true, [] ++ t2)
         | (.error e, t2) =>
           ({ s with handle := none, channels := [], connected := false },
            .error e, [] ++ t2)) := by
      simp [connect, hd, hc, hp]
    rcases hct : connectTry env
        { s with handle := some 1, channels := buildChannels false } with ⟨r, t2⟩
    have hopen := (connectTry_spec env
        { s with handle := some 1, channels := buildChannels false }).1
    have hh := (connectTry_spec env
        { s with handle := some 1, channels := buildChannels false }).2
    rw [hct] at hopen hred hh
    dsimp only at hopen hh
    cases r with
    | error e => simp [hred, openCallsOf_append, openCallsOf_nil, hopen]
    | ok s3 =>
      have := hh s3 rfl
      simp [hred, openCallsOf_append, openCallsOf_nil, hopen, this]

/-- C2, witness: concrete primary connect attempt whose open call returned
handle 2, and concrete secondary connect in a fully healthy environment. -/
theorem connect_open_discipline_witness :
    ((stagePrimaryFresh.openNewConnection = true →
        openCallsOf (connect envBadHandle stagePrimaryFresh).2.2 =
          [HwCall.openCall (removeSuffix stagePrimaryFresh.address "_Ch1-3")] ∧
        (envBadHandle.openResult ≠ 1 →
          (connect envBadHandle stagePrimaryFresh).2.1 =
            .error (.stageError "Expected the handle to be 1.")))) ∧
    ((stageSecondaryFresh.openNewConnection = false →
        openCallsOf (connect envGood stageSecondaryFresh).2.2 = [] ∧
        ((connect envGood stageSecondaryFresh).2.1 = .ok true →
          (connect envGood stageSecondaryFresh).1.handle = some 1))) :=
  ⟨(connect_open_discipline envBadHandle stagePrimaryFresh rfl rfl).1,
   (connect_open_discipline envGood stageSecondaryFresh rfl rfl).2⟩

end SmarActMCS2
